import Mathlib

/-!
Shallow embedding of the SEMF scoring engine
(`src/utils/semfScoring.ts` of the SHaBridge English Mastery Framework).

Scores are embedded as rationals (`ℚ`): the source uses exact arithmetic on
values of the form `(raw / max) * 50`.  JavaScript objects keyed by question
number are embedded as association lists with distinct keys; a missing key is
`Option.none`.  String operations (`trim`, `toUpperCase`, `toLowerCase`,
`includes`, `split(/\s+/)`) are embedded by their Lean counterparts, which
agree with the JavaScript semantics on the ASCII inputs this program handles.
-/

namespace SEMF

/-- One band of the cutoff table: a level name and the inclusive
`[min, max]` range of normalized scores it covers. -/
structure Cutoff where
  level : String
  min : ℚ
  max : ℚ
deriving DecidableEq, Repr

/-- `LEVEL_CUTOFFS` from the source, in declaration order S1..S5. -/
def LEVEL_CUTOFFS : List Cutoff :=
  [⟨"S1", 0, 15⟩, ⟨"S2", 16, 25⟩, ⟨"S3", 26, 33⟩, ⟨"S4", 34, 42⟩, ⟨"S5", 43, 50⟩]

/-- The five level names, in table order (`Object.keys(LEVEL_CUTOFFS)`). -/
def levelNames : List String := LEVEL_CUTOFFS.map Cutoff.level

/-- `LEVEL_DESCRIPTIONS` from the source. -/
def LEVEL_DESCRIPTIONS : List (String × String) :=
  [("S1", "Basic user - understands and uses simple expressions."),
   ("S2", "Elementary user - can handle short, routine exchanges."),
   ("S3", "Independent user - can deal with most everyday situations."),
   ("S4", "Proficient user - can interact fluently and spontaneously."),
   ("S5", "Mastery - can express ideas precisely in complex situations.")]

/-- `CORRECT_ANSWERS` from the source: the static answer key
(questions 1-20, 21-35, 36-40 and 45-56; 41-44 have no key entry). -/
def CORRECT_ANSWERS : List (ℕ × String) :=
  [(1, "B"), (2, "A"), (3, "C"), (4, "B"), (5, "C"),
   (6, "C"), (7, "B"), (8, "A"), (9, "C"), (10, "A"),
   (11, "B"), (12, "B"), (13, "C"), (14, "C"), (15, "C"),
   (16, "B"), (17, "B"), (18, "B"), (19, "C"), (20, "B"),
   (21, "C"), (22, "C"), (23, "B"), (24, "D"), (25, "B"),
   (26, "C"), (27, "B"), (28, "B"), (29, "B"), (30, "B"),
   (31, "B"), (32, "B"), (33, "C"), (34, "A"), (35, "C"),
   (36, "B, C, D, A"), (37, "C, B, A, D"), (38, "A, C, D, B"),
   (39, "B, C, D, A"), (40, "C, B, D, A"),
   (45, "B"), (46, "B"), (47, "C"), (48, "B"), (49, "B"), (50, "C"),
   (51, "B"), (52, "B"), (53, "B"), (54, "B"), (55, "C"), (56, "B")]

/-- `TEXT_ANSWER_KEYWORDS` from the source (questions 41-43). -/
def TEXT_ANSWER_KEYWORDS (i : ℕ) : List String :=
  if i = 41 then ["flexibility", "commute", "talent", "global", "reduced", "access"]
  else if i = 42 then ["isolation", "culture", "security", "challenges", "difficulties"]
  else if i = 43 then ["maximize", "benefits", "mitigate", "drawbacks", "strategies", "developing"]
  else []

/-- An answer set: a JavaScript object mapping question numbers to answer
text, embedded as an association list with distinct keys. -/
abbrev AnswerMap := List (ℕ × String)

/-- `answers[i]` on the JavaScript answer object: `none` models `undefined`. -/
def getAnswer (answers : AnswerMap) (i : ℕ) : Option String := answers.lookup i

/-- JavaScript `s.trim()`: drop surrounding whitespace (character-list
implementation, structurally recursive so that the kernel can evaluate it). -/
def strTrim (s : String) : String :=
  ⟨((s.data.dropWhile Char.isWhitespace).reverse.dropWhile Char.isWhitespace).reverse⟩

/-- JavaScript `s.toUpperCase()` on the ASCII data this program handles. -/
def strUpper (s : String) : String := ⟨s.data.map Char.toUpper⟩

/-- JavaScript `s.toLowerCase()` on the ASCII data this program handles. -/
def strLower (s : String) : String := ⟨s.data.map Char.toLower⟩

/-- Whether `pre` is an initial segment of `l`. -/
def listStartsWith : List Char → List Char → Bool
  | [], _ => true
  | _ :: _, [] => false
  | a :: as, b :: bs => a == b && listStartsWith as bs

/-- Whether `sub` occurs contiguously inside `l`. -/
def occursIn (sub : List Char) : List Char → Bool
  | [] => listStartsWith sub []
  | c :: rest => listStartsWith sub (c :: rest) || occursIn sub rest

/-- JavaScript `s.includes(sub)`: `sub` occurs as a contiguous substring. -/
def strIncludes (s sub : String) : Bool := occursIn sub.data s.data

/-- The number of maximal runs of non-whitespace characters; the flag records
whether the scan is currently inside such a run. -/
def countWordRuns : Bool → List Char → ℕ
  | _, [] => 0
  | inWord, c :: rest =>
    if c.isWhitespace then countWordRuns false rest
    else (if inWord then 0 else 1) + countWordRuns true rest

/-- JavaScript `parseInt` on an all-digit string (the only shape the engine
ever parses: the digit after the `S` of a level name); `none` models `NaN`. -/
def parseNat (s : String) : Option ℕ :=
  if s.data ≠ [] ∧ s.data.all Char.isDigit then
    some (s.data.foldl (fun n c => n * 10 + (c.toNat - 48)) 0)
  else none

/-- The per-question comparison `answers[i]?.<transform>() === CORRECT_ANSWERS[i]`
used by the single-letter and ordered-list loops.  A missing submitted answer
(`undefined`) never matches the key (every key in the graded ranges is a
defined string). -/
def answerMatches (answers : AnswerMap) (transform : String → String) (i : ℕ) : Bool :=
  match getAnswer answers i, CORRECT_ANSWERS.lookup i with
  | some a, some c => transform a == c
  | _, _ => false

/-- The free-text check for questions 41-43: lower-case the answer (empty if
absent), count keyword substring hits, award iff at least 2 hits and the
answer has at least 20 characters. -/
def textQuestionCorrect (answers : AnswerMap) (i : ℕ) : Bool :=
  let userAnswer := strLower ((getAnswer answers i).getD "")
  let keywordMatches :=
    ((TEXT_ANSWER_KEYWORDS i).filter (fun kw => strIncludes userAnswer (strLower kw))).length
  if 2 ≤ keywordMatches ∧ 20 ≤ userAnswer.data.length then true else false

/-- `answers[44]?.trim() || ''`: the trimmed essay answer, empty if absent. -/
def essayAnswerOf (answers : AnswerMap) : String :=
  ((getAnswer answers 44).map strTrim).getD ""

/-- `essayAnswer ? essayAnswer.split(/\s+/).length : 0`.  On a trimmed
non-empty string, splitting on the regex `\s+` yields exactly the maximal
runs of non-whitespace characters. -/
def essayWordCount (answers : AnswerMap) : ℕ :=
  let essayAnswer := essayAnswerOf answers
  if essayAnswer = "" then 0
  else countWordRuns false essayAnswer.data

/-- Whether the lower-cased essay contains one of the four argument-signal
words (the `hasArgument` check of the source). -/
def hasArgument (essayAnswer : String) : Bool :=
  strIncludes (strLower essayAnswer) "advantage" ||
  strIncludes (strLower essayAnswer) "disadvantage" ||
  strIncludes (strLower essayAnswer) "benefit" ||
  strIncludes (strLower essayAnswer) "challenge"

/-- The essay point for question 44: word count in `[80, 200]`, a non-empty
answer, and an argument-signal word present. -/
def essayPoint (answers : AnswerMap) : Bool :=
  let essayAnswer := essayAnswerOf answers
  let wordCount := essayWordCount answers
  if 80 ≤ wordCount ∧ wordCount ≤ 200 ∧ 0 < essayAnswer.length then
    hasArgument essayAnswer
  else false

/-- `SEMFInput` from the source: the three raw scores. -/
structure SEMFInput where
  GrammarVocabulary : ℕ
  ReadingWriting : ℕ
  Listening : ℕ
deriving DecidableEq, Repr

/-- `calculateActualScores` from the source: grade every range of the fixed
question partition and count the points per skill. -/
def calculateActualScores (answers : AnswerMap) : SEMFInput :=
  let grammarScore :=
    ((List.range' 1 20).filter (answerMatches answers (fun a => strUpper (strTrim a)))).length
  let storyScore :=
    ((List.range' 21 15).filter (answerMatches answers (fun a => strUpper (strTrim a)))).length
  let orderingScore :=
    ((List.range' 36 5).filter (answerMatches answers strTrim)).length
  let textScore :=
    ((List.range' 41 3).filter (textQuestionCorrect answers)).length
  let essayScore := if essayPoint answers then 1 else 0
  let listeningScore :=
    ((List.range' 45 12).filter (answerMatches answers (fun a => strUpper (strTrim a)))).length
  { GrammarVocabulary := grammarScore,
    ReadingWriting := storyScore + orderingScore + textScore + essayScore,
    Listening := listeningScore }

/-- Normalization onto the 0-50 scale: `(raw / max) * 50`. -/
def normalizeScore (raw : ℕ) (maxScore : ℕ) : ℚ :=
  (raw : ℚ) / (maxScore : ℚ) * 50

/-- The scan of `mapToLevel`: return the first band whose inclusive
`[min, max]` range contains the score. -/
def findLevel (n : ℚ) : List Cutoff → Option String
  | [] => none
  | c :: rest => if c.min ≤ n ∧ n ≤ c.max then some c.level else findLevel n rest

/-- `mapToLevel` from the source: first matching band, else the hard-coded
default `"S1"`. -/
def mapToLevel (n : ℚ) : String := (findLevel n LEVEL_CUTOFFS).getD "S1"

/-- One iteration of the tie-breaker loop at table position `idx` for band
`band`: the upward check (within 2 below `band.min`, grammar at least 35)
returns this band; otherwise the downward check (within 2 above `band.max`,
grammar below 35) returns the band at position `idx - 1` when `idx > 0`;
otherwise nothing. -/
def tieBreakCheck (n g : ℚ) (idx : ℕ) (band : Cutoff) : Option (String × Bool) :=
  if band.min - 2 ≤ n ∧ n < band.min ∧ 35 ≤ g then
    some (band.level, true)
  else if band.max < n ∧ n ≤ band.max + 2 ∧ g < 35 then
    match idx, LEVEL_CUTOFFS.get? (idx - 1) with
    | 0, _ => none
    | _ + 1, some lower => some (lower.level, true)
    | _ + 1, none => none
  else none

/-- The source's `for..of` loop over the cutoff table with its early
`return`: the first iteration that produces a result wins. -/
def tieBreakLoop (n g : ℚ) : ℕ → List Cutoff → Option (String × Bool)
  | _, [] => none
  | idx, band :: rest =>
    match tieBreakCheck n g idx band with
    | some r => some r
    | none => tieBreakLoop n g (idx + 1) rest

/-- `applyTieBreaker` from the source: run the loop; if no window fires the
base level stands with the flag cleared. -/
def applyTieBreaker (n g : ℚ) : String × Bool :=
  (tieBreakLoop n g 0 LEVEL_CUTOFFS).getD (mapToLevel n, false)

/-- All results produced by a full scan of the table without an early exit,
in ascending band order. -/
def tieBreakMatches (n g : ℚ) : ℕ → List Cutoff → List (String × Bool)
  | _, [] => []
  | idx, band :: rest =>
    match tieBreakCheck n g idx band with
    | some r => r :: tieBreakMatches n g (idx + 1) rest
    | none => tieBreakMatches n g (idx + 1) rest

/-- Modelled from the spec's words for the tie-break scan (section 4.3,
step 3): visit all five bands with no early exit, and when several bands
match let the match evaluated last in ascending band order win. -/
def applyTieBreakerLastMatch (n g : ℚ) : String × Bool :=
  ((tieBreakMatches n g 0 LEVEL_CUTOFFS).getLast?).getD (mapToLevel n, false)

/-- `parseInt(level.substring(1))` on a level string, as an optional
natural number (`none` models `NaN`, never produced by the engine). -/
def levelToNumber (level : String) : Option ℕ := parseNat ⟨level.data.drop 1⟩

/-- The numeric value the engine actually uses for a level string. -/
def levelToNumberD (level : String) : ℕ := (levelToNumber level).getD 0

/-- The ordinal of a level name, written out directly (used to state
properties about band distances). -/
def levelOrdinal (level : String) : ℕ :=
  if level = "S1" then 1
  else if level = "S2" then 2
  else if level = "S3" then 3
  else if level = "S4" then 4
  else if level = "S5" then 5
  else 0

/-- JavaScript `Math.round` on a non-negative rational: floor of `q + 1/2`. -/
def jsRound (q : ℚ) : ℤ := ⌊q + 1 / 2⌋

/-- Rounding to one decimal for display: `Math.round(q * 10) / 10`. -/
def roundTenth (q : ℚ) : ℚ := (jsRound (q * 10) : ℚ) / 10

/-- The completion figure of `getDetailedFeedback`:
`(Object.keys(answers).length / 56) * 100`. -/
def completionRate (answers : AnswerMap) : ℚ :=
  ((answers.length : ℚ) / 56) * 100

/-- The canned recommendation paragraph selected by the source's `switch`. -/
def levelRecommendation (level : String) : String :=
  if level = "S1" then
    "Recommendations: Focus on basic vocabulary building, simple sentence structures, and everyday expressions. Practice listening to slow, clear speech."
  else if level = "S2" then
    "Recommendations: Expand vocabulary for common situations, practice past and future tenses, and work on basic conversation skills."
  else if level = "S3" then
    "Recommendations: Study complex grammar structures, academic vocabulary, and practice expressing opinions clearly in writing."
  else if level = "S4" then
    "Recommendations: Refine advanced grammar usage, expand professional vocabulary, and practice nuanced expression in complex topics."
  else if level = "S5" then
    "Recommendations: Maintain proficiency through exposure to complex texts, academic writing, and professional communication contexts."
  else "Continue practicing to improve your English proficiency."

/-- `getDetailedFeedback` from the source: the narrative summary with the
performance breakdown, completion percentage and recommendation. -/
def getDetailedFeedback (answers : AnswerMap) (level : String) (scores : SEMFInput) : String :=
  "Overall SEMF Level: " ++ level ++ "\n\n" ++
  "Performance Breakdown:\n" ++
  "- Grammar & Vocabulary: " ++ toString scores.GrammarVocabulary ++ "/20 (" ++
    toString (jsRound ((scores.GrammarVocabulary : ℚ) / 20 * 100)) ++ "%)\n" ++
  "- Reading & Writing: " ++ toString scores.ReadingWriting ++ "/24 (" ++
    toString (jsRound ((scores.ReadingWriting : ℚ) / 24 * 100)) ++ "%)\n" ++
  "- Listening: " ++ toString scores.Listening ++ "/12 (" ++
    toString (jsRound ((scores.Listening : ℚ) / 12 * 100)) ++ "%)\n" ++
  "- Test Completion: " ++ toString (jsRound (completionRate answers)) ++ "%\n\n" ++
  levelRecommendation level

/-- `SEMFSkillResult` from the source. -/
structure SEMFSkillResult where
  skill : String
  rawScore : ℕ
  normalizedScore : ℚ
  level : String
  tieBreakerApplied : Bool
deriving DecidableEq, Repr

/-- The tie-breaker skill entry of the report. -/
structure TieBreakerSkill where
  skill : String
  rawScore : ℕ
  normalizedScore : ℚ
deriving DecidableEq, Repr

/-- `SEMFResult` from the source.  A description lookup that would be
`undefined` in JavaScript is embedded as `Option.none`. -/
structure SEMFResult where
  skills : List SEMFSkillResult
  tieBreakerSkill : TieBreakerSkill
  overallLevel : String
  descriptions : List (String × Option String)
  summary : String
deriving DecidableEq, Repr

/-- `calculateSEMFLevel` from the source: the full engine pipeline. -/
def calculateSEMFLevel (answers : AnswerMap) : SEMFResult :=
  let rawScores := calculateActualScores answers
  let grammarVocabNorm := normalizeScore rawScores.GrammarVocabulary 20
  let readingWritingNorm := normalizeScore rawScores.ReadingWriting 24
  let listeningNorm := normalizeScore rawScores.Listening 12
  let readingWritingResult := applyTieBreaker readingWritingNorm grammarVocabNorm
  let listeningResult := applyTieBreaker listeningNorm grammarVocabNorm
  let readingWritingNumber := levelToNumberD readingWritingResult.1
  let listeningNumber := levelToNumberD listeningResult.1
  let overallNumber := min readingWritingNumber listeningNumber
  let overallLevel := "S" ++ toString overallNumber
  let skills : List SEMFSkillResult :=
    [{ skill := "ReadingWriting", rawScore := rawScores.ReadingWriting,
       normalizedScore := roundTenth readingWritingNorm,
       level := readingWritingResult.1,
       tieBreakerApplied := readingWritingResult.2 },
     { skill := "Listening", rawScore := rawScores.Listening,
       normalizedScore := roundTenth listeningNorm,
       level := listeningResult.1,
       tieBreakerApplied := listeningResult.2 }]
  let tieBreakerSkill : TieBreakerSkill :=
    { skill := "GrammarVocabulary", rawScore := rawScores.GrammarVocabulary,
      normalizedScore := roundTenth grammarVocabNorm }
  let levelsPresent := [readingWritingResult.1, listeningResult.1, overallLevel].dedup
  let descriptions := levelsPresent.map (fun l => (l, LEVEL_DESCRIPTIONS.lookup l))
  let summary := getDetailedFeedback answers overallLevel rawScores
  { skills := skills, tieBreakerSkill := tieBreakerSkill,
    overallLevel := overallLevel, descriptions := descriptions,
    summary := summary }

/-- Whether a normalized score lies strictly between two consecutive bands of
the cutoff table (the four one-point-wide gaps of the table). -/
def inCutoffGap (n : ℚ) : Prop :=
  (15 < n ∧ n < 16) ∨ (25 < n ∧ n < 26) ∨ (33 < n ∧ n < 34) ∨ (42 < n ∧ n < 43)

instance (n : ℚ) : Decidable (inCutoffGap n) := by unfold inCutoffGap; infer_instance

/-- A structurally complete report: two skill entries whose levels are
defined level names, an overall level that is a defined level name, and a
description lookup that succeeded for every level present. -/
def reportWellFormed (r : SEMFResult) : Prop :=
  r.skills.length = 2 ∧
  (∀ s ∈ r.skills, s.level ∈ levelNames) ∧
  r.overallLevel ∈ levelNames ∧
  ∀ p ∈ r.descriptions, p.2.isSome = true

end SEMF

namespace SEMF

/-! Helper lemmas: evaluating `mapToLevel` on each region of the score line. -/

theorem findLevel_mem {n : ℚ} {l : List Cutoff} {s : String}
    (h : findLevel n l = some s) : s ∈ l.map Cutoff.level := by
  induction l with
  | nil => simp [findLevel] at h
  | cons c rest ih =>
    rw [findLevel] at h
    by_cases hc : c.min ≤ n ∧ n ≤ c.max
    · rw [if_pos hc] at h
      injection h with h
      simp [h]
    · rw [if_neg hc] at h
      simp [ih h]

theorem mapToLevel_mem (n : ℚ) : mapToLevel n ∈ levelNames := by
  rw [mapToLevel]
  cases h : findLevel n LEVEL_CUTOFFS with
  | none => simp [levelNames, LEVEL_CUTOFFS]
  | some s => simpa [levelNames] using findLevel_mem h

theorem mapToLevel_S1 {n : ℚ} (h0 : 0 ≤ n) (h1 : n ≤ 15) : mapToLevel n = "S1" := by
  simp only [mapToLevel, LEVEL_CUTOFFS, findLevel]
  rw [if_pos ⟨h0, h1⟩]
  rfl

theorem mapToLevel_S2 {n : ℚ} (h0 : 16 ≤ n) (h1 : n ≤ 25) : mapToLevel n = "S2" := by
  simp only [mapToLevel, LEVEL_CUTOFFS, findLevel]
  rw [if_neg (by rintro ⟨-, h⟩; linarith), if_pos ⟨h0, h1⟩]
  rfl

theorem mapToLevel_S3 {n : ℚ} (h0 : 26 ≤ n) (h1 : n ≤ 33) : mapToLevel n = "S3" := by
  simp only [mapToLevel, LEVEL_CUTOFFS, findLevel]
  rw [if_neg (by rintro ⟨-, h⟩; linarith), if_neg (by rintro ⟨-, h⟩; linarith),
    if_pos ⟨h0, h1⟩]
  rfl

theorem mapToLevel_S4 {n : ℚ} (h0 : 34 ≤ n) (h1 : n ≤ 42) : mapToLevel n = "S4" := by
  simp only [mapToLevel, LEVEL_CUTOFFS, findLevel]
  rw [if_neg (by rintro ⟨-, h⟩; linarith), if_neg (by rintro ⟨-, h⟩; linarith),
    if_neg (by rintro ⟨-, h⟩; linarith), if_pos ⟨h0, h1⟩]
  rfl

theorem mapToLevel_S5 {n : ℚ} (h0 : 43 ≤ n) (h1 : n ≤ 50) : mapToLevel n = "S5" := by
  simp only [mapToLevel, LEVEL_CUTOFFS, findLevel]
  rw [if_neg (by rintro ⟨-, h⟩; linarith), if_neg (by rintro ⟨-, h⟩; linarith),
    if_neg (by rintro ⟨-, h⟩; linarith), if_neg (by rintro ⟨-, h⟩; linarith),
    if_pos ⟨h0, h1⟩]
  rfl

theorem mapToLevel_fallback {n : ℚ}
    (w1 : ¬(0 ≤ n ∧ n ≤ 15)) (w2 : ¬(16 ≤ n ∧ n ≤ 25)) (w3 : ¬(26 ≤ n ∧ n ≤ 33))
    (w4 : ¬(34 ≤ n ∧ n ≤ 42)) (w5 : ¬(43 ≤ n ∧ n ≤ 50)) : mapToLevel n = "S1" := by
  simp only [mapToLevel, LEVEL_CUTOFFS, findLevel]
  rw [if_neg w1, if_neg w2, if_neg w3, if_neg w4, if_neg w5]
  rfl

/-! Helper lemmas: evaluating one tie-breaker check. -/

theorem tieBreakCheck_up {n g : ℚ} (idx : ℕ) (lvl : String) (bmin bmax : ℚ)
    (h1 : bmin - 2 ≤ n) (h2 : n < bmin) (h3 : 35 ≤ g) :
    tieBreakCheck n g idx ⟨lvl, bmin, bmax⟩ = some (lvl, true) := by
  simp only [tieBreakCheck]
  rw [if_pos ⟨h1, h2, h3⟩]

theorem tieBreakCheck_none {n g : ℚ} (idx : ℕ) (lvl : String) (bmin bmax : ℚ)
    (hup : ¬(bmin - 2 ≤ n ∧ n < bmin ∧ 35 ≤ g))
    (hdn : ¬(bmax < n ∧ n ≤ bmax + 2 ∧ g < 35)) :
    tieBreakCheck n g idx ⟨lvl, bmin, bmax⟩ = none := by
  simp only [tieBreakCheck]
  rw [if_neg hup, if_neg hdn]

theorem tieBreakCheck0_none {n g : ℚ} (lvl : String) (bmin bmax : ℚ)
    (hup : ¬(bmin - 2 ≤ n ∧ n < bmin ∧ 35 ≤ g)) :
    tieBreakCheck n g 0 ⟨lvl, bmin, bmax⟩ = none := by
  simp only [tieBreakCheck]
  rw [if_neg hup]
  by_cases hdn : bmax < n ∧ n ≤ bmax + 2 ∧ g < 35
  · rw [if_pos hdn]
  · rw [if_neg hdn]

theorem tieBreakCheck_down {n g : ℚ} (idx : ℕ) (lvl : String) (bmin bmax : ℚ) {lower : Cutoff}
    (hup : ¬(bmin - 2 ≤ n ∧ n < bmin ∧ 35 ≤ g))
    (h1 : bmax < n) (h2 : n ≤ bmax + 2) (h3 : g < 35)
    (hlow : LEVEL_CUTOFFS.get? idx = some lower) :
    tieBreakCheck n g (idx + 1) ⟨lvl, bmin, bmax⟩ = some (lower.level, true) := by
  simp only [tieBreakCheck]
  rw [if_neg hup, if_pos ⟨h1, h2, h3⟩]
  have hlow2 : LEVEL_CUTOFFS[idx]? = some lower := by
    rw [← List.get?_eq_getElem?]
    exact hlow
  simp [hlow2]

/-! Helper lemmas: the value of the tie-break scan (both the source's
early-exit loop and the spec's full last-match scan) on each region of the
`(n, g)` plane. -/

theorem tb_up1 {n g : ℚ} (h1 : -2 ≤ n) (h2 : n < 0) (hg : 35 ≤ g) :
    applyTieBreaker n g = ("S1", true) ∧ applyTieBreakerLastMatch n g = ("S1", true) := by
  have e0 : tieBreakCheck n g 0 ⟨"S1", 0, 15⟩ = some ("S1", true) :=
    tieBreakCheck_up 0 "S1" 0 15 (by linarith) h2 hg
  have e1 : tieBreakCheck n g 1 ⟨"S2", 16, 25⟩ = none :=
    tieBreakCheck_none 1 "S2" 16 25 (by rintro ⟨h, -, -⟩; linarith)
      (by rintro ⟨-, -, h⟩; linarith)
  have e2 : tieBreakCheck n g 2 ⟨"S3", 26, 33⟩ = none :=
    tieBreakCheck_none 2 "S3" 26 33 (by rintro ⟨h, -, -⟩; linarith)
      (by rintro ⟨-, -, h⟩; linarith)
  have e3 : tieBreakCheck n g 3 ⟨"S4", 34, 42⟩ = none :=
    tieBreakCheck_none 3 "S4" 34 42 (by rintro ⟨h, -, -⟩; linarith)
      (by rintro ⟨-, -, h⟩; linarith)
  have e4 : tieBreakCheck n g 4 ⟨"S5", 43, 50⟩ = none :=
    tieBreakCheck_none 4 "S5" 43 50 (by rintro ⟨h, -, -⟩; linarith)
      (by rintro ⟨-, -, h⟩; linarith)
  constructor <;>
    simp [applyTieBreaker, applyTieBreakerLastMatch, LEVEL_CUTOFFS, tieBreakLoop,
      tieBreakMatches, e0, e1, e2, e3, e4]

theorem tb_up2 {n g : ℚ} (h1 : 14 ≤ n) (h2 : n < 16) (hg : 35 ≤ g) :
    applyTieBreaker n g = ("S2", true) ∧ applyTieBreakerLastMatch n g = ("S2", true) := by
  have e0 : tieBreakCheck n g 0 ⟨"S1", 0, 15⟩ = none :=
    tieBreakCheck0_none "S1" 0 15 (by rintro ⟨-, h, -⟩; linarith)
  have e1 : tieBreakCheck n g 1 ⟨"S2", 16, 25⟩ = some ("S2", true) :=
    tieBreakCheck_up 1 "S2" 16 25 (by linarith) h2 hg
  have e2 : tieBreakCheck n g 2 ⟨"S3", 26, 33⟩ = none :=
    tieBreakCheck_none 2 "S3" 26 33 (by rintro ⟨h, -, -⟩; linarith)
      (by rintro ⟨-, -, h⟩; linarith)
  have e3 : tieBreakCheck n g 3 ⟨"S4", 34, 42⟩ = none :=
    tieBreakCheck_none 3 "S4" 34 42 (by rintro ⟨h, -, -⟩; linarith)
      (by rintro ⟨-, -, h⟩; linarith)
  have e4 : tieBreakCheck n g 4 ⟨"S5", 43, 50⟩ = none :=
    tieBreakCheck_none 4 "S5" 43 50 (by rintro ⟨h, -, -⟩; linarith)
      (by rintro ⟨-, -, h⟩; linarith)
  constructor <;>
    simp [applyTieBreaker, applyTieBreakerLastMatch, LEVEL_CUTOFFS, tieBreakLoop,
      tieBreakMatches, e0, e1, e2, e3, e4]

theorem tb_up3 {n g : ℚ} (h1 : 24 ≤ n) (h2 : n < 26) (hg : 35 ≤ g) :
    applyTieBreaker n g = ("S3", true) ∧ applyTieBreakerLastMatch n g = ("S3", true) := by
  have e0 : tieBreakCheck n g 0 ⟨"S1", 0, 15⟩ = none :=
    tieBreakCheck0_none "S1" 0 15 (by rintro ⟨-, h, -⟩; linarith)
  have e1 : tieBreakCheck n g 1 ⟨"S2", 16, 25⟩ = none :=
    tieBreakCheck_none 1 "S2" 16 25 (by rintro ⟨-, h, -⟩; linarith)
      (by rintro ⟨-, -, h⟩; linarith)
  have e2 : tieBreakCheck n g 2 ⟨"S3", 26, 33⟩ = some ("S3", true) :=
    tieBreakCheck_up 2 "S3" 26 33 (by linarith) h2 hg
  have e3 : tieBreakCheck n g 3 ⟨"S4", 34, 42⟩ = none :=
    tieBreakCheck_none 3 "S4" 34 42 (by rintro ⟨h, -, -⟩; linarith)
      (by rintro ⟨-, -, h⟩; linarith)
  have e4 : tieBreakCheck n g 4 ⟨"S5", 43, 50⟩ = none :=
    tieBreakCheck_none 4 "S5" 43 50 (by rintro ⟨h, -, -⟩; linarith)
      (by rintro ⟨-, -, h⟩; linarith)
  constructor <;>
    simp [applyTieBreaker, applyTieBreakerLastMatch, LEVEL_CUTOFFS, tieBreakLoop,
      tieBreakMatches, e0, e1, e2, e3, e4]

theorem tb_up4 {n g : ℚ} (h1 : 32 ≤ n) (h2 : n < 34) (hg : 35 ≤ g) :
    applyTieBreaker n g = ("S4", true) ∧ applyTieBreakerLastMatch n g = ("S4", true) := by
  have e0 : tieBreakCheck n g 0 ⟨"S1", 0, 15⟩ = none :=
    tieBreakCheck0_none "S1" 0 15 (by rintro ⟨-, h, -⟩; linarith)
  have e1 : tieBreakCheck n g 1 ⟨"S2", 16, 25⟩ = none :=
    tieBreakCheck_none 1 "S2" 16 25 (by rintro ⟨-, h, -⟩; linarith)
      (by rintro ⟨-, -, h⟩; linarith)
  have e2 : tieBreakCheck n g 2 ⟨"S3", 26, 33⟩ = none :=
    tieBreakCheck_none 2 "S3" 26 33 (by rintro ⟨-, h, -⟩; linarith)
      (by rintro ⟨-, -, h⟩; linarith)
  have e3 : tieBreakCheck n g 3 ⟨"S4", 34, 42⟩ = some ("S4", true) :=
    tieBreakCheck_up 3 "S4" 34 42 (by linarith) h2 hg
  have e4 : tieBreakCheck n g 4 ⟨"S5", 43, 50⟩ = none :=
    tieBreakCheck_none 4 "S5" 43 50 (by rintro ⟨h, -, -⟩; linarith)
      (by rintro ⟨-, -, h⟩; linarith)
  constructor <;>
    simp [applyTieBreaker, applyTieBreakerLastMatch, LEVEL_CUTOFFS, tieBreakLoop,
      tieBreakMatches, e0, e1, e2, e3, e4]

theorem tb_up5 {n g : ℚ} (h1 : 41 ≤ n) (h2 : n < 43) (hg : 35 ≤ g) :
    applyTieBreaker n g = ("S5", true) ∧ applyTieBreakerLastMatch n g = ("S5", true) := by
  have e0 : tieBreakCheck n g 0 ⟨"S1", 0, 15⟩ = none :=
    tieBreakCheck0_none "S1" 0 15 (by rintro ⟨-, h, -⟩; linarith)
  have e1 : tieBreakCheck n g 1 ⟨"S2", 16, 25⟩ = none :=
    tieBreakCheck_none 1 "S2" 16 25 (by rintro ⟨-, h, -⟩; linarith)
      (by rintro ⟨-, -, h⟩; linarith)
  have e2 : tieBreakCheck n g 2 ⟨"S3", 26, 33⟩ = none :=
    tieBreakCheck_none 2 "S3" 26 33 (by rintro ⟨-, h, -⟩; linarith)
      (by rintro ⟨-, -, h⟩; linarith)
  have e3 : tieBreakCheck n g 3 ⟨"S4", 34, 42⟩ = none :=
    tieBreakCheck_none 3 "S4" 34 42 (by rintro ⟨-, h, -⟩; linarith)
      (by rintro ⟨-, -, h⟩; linarith)
  have e4 : tieBreakCheck n g 4 ⟨"S5", 43, 50⟩ = some ("S5", true) :=
    tieBreakCheck_up 4 "S5" 43 50 (by linarith) h2 hg
  constructor <;>
    simp [applyTieBreaker, applyTieBreakerLastMatch, LEVEL_CUTOFFS, tieBreakLoop,
      tieBreakMatches, e0, e1, e2, e3, e4]

theorem tb_none_hi {n g : ℚ} (hg : 35 ≤ g)
    (w1 : ¬(-2 ≤ n ∧ n < 0)) (w2 : ¬(14 ≤ n ∧ n < 16)) (w3 : ¬(24 ≤ n ∧ n < 26))
    (w4 : ¬(32 ≤ n ∧ n < 34)) (w5 : ¬(41 ≤ n ∧ n < 43)) :
    applyTieBreaker n g = (mapToLevel n, false) ∧
    applyTieBreakerLastMatch n g = (mapToLevel n, false) := by
  have e0 : tieBreakCheck n g 0 ⟨"S1", 0, 15⟩ = none :=
    tieBreakCheck0_none "S1" 0 15 (by rintro ⟨a, b, -⟩; exact w1 ⟨by linarith, b⟩)
  have e1 : tieBreakCheck n g 1 ⟨"S2", 16, 25⟩ = none :=
    tieBreakCheck_none 1 "S2" 16 25 (by rintro ⟨a, b, -⟩; exact w2 ⟨by linarith, b⟩)
      (by rintro ⟨-, -, h⟩; linarith)
  have e2 : tieBreakCheck n g 2 ⟨"S3", 26, 33⟩ = none :=
    tieBreakCheck_none 2 "S3" 26 33 (by rintro ⟨a, b, -⟩; exact w3 ⟨by linarith, b⟩)
      (by rintro ⟨-, -, h⟩; linarith)
  have e3 : tieBreakCheck n g 3 ⟨"S4", 34, 42⟩ = none :=
    tieBreakCheck_none 3 "S4" 34 42 (by rintro ⟨a, b, -⟩; exact w4 ⟨by linarith, b⟩)
      (by rintro ⟨-, -, h⟩; linarith)
  have e4 : tieBreakCheck n g 4 ⟨"S5", 43, 50⟩ = none :=
    tieBreakCheck_none 4 "S5" 43 50 (by rintro ⟨a, b, -⟩; exact w5 ⟨by linarith, b⟩)
      (by rintro ⟨-, -, h⟩; linarith)
  constructor <;>
    simp [applyTieBreaker, applyTieBreakerLastMatch, LEVEL_CUTOFFS, tieBreakLoop,
      tieBreakMatches, e0, e1, e2, e3, e4]

theorem tb_dn2 {n g : ℚ} (h1 : 25 < n) (h2 : n ≤ 27) (hg : g < 35) :
    applyTieBreaker n g = ("S1", true) ∧ applyTieBreakerLastMatch n g = ("S1", true) := by
  have e0 : tieBreakCheck n g 0 ⟨"S1", 0, 15⟩ = none :=
    tieBreakCheck0_none "S1" 0 15 (by rintro ⟨-, -, h⟩; linarith)
  have e1 : tieBreakCheck n g 1 ⟨"S2", 16, 25⟩ = some ("S1", true) := by
    exact tieBreakCheck_down 0 "S2" 16 25 (by rintro ⟨-, -, h⟩; linarith)
      h1 (by linarith) hg rfl
  have e2 : tieBreakCheck n g 2 ⟨"S3", 26, 33⟩ = none :=
    tieBreakCheck_none 2 "S3" 26 33 (by rintro ⟨-, -, h⟩; linarith)
      (by rintro ⟨h, -, -⟩; linarith)
  have e3 : tieBreakCheck n g 3 ⟨"S4", 34, 42⟩ = none :=
    tieBreakCheck_none 3 "S4" 34 42 (by rintro ⟨-, -, h⟩; linarith)
      (by rintro ⟨h, -, -⟩; linarith)
  have e4 : tieBreakCheck n g 4 ⟨"S5", 43, 50⟩ = none :=
    tieBreakCheck_none 4 "S5" 43 50 (by rintro ⟨-, -, h⟩; linarith)
      (by rintro ⟨h, -, -⟩; linarith)
  constructor <;>
    simp [applyTieBreaker, applyTieBreakerLastMatch, LEVEL_CUTOFFS, tieBreakLoop,
      tieBreakMatches, e0, e1, e2, e3, e4]

theorem tb_dn3 {n g : ℚ} (h1 : 33 < n) (h2 : n ≤ 35) (hg : g < 35) :
    applyTieBreaker n g = ("S2", true) ∧ applyTieBreakerLastMatch n g = ("S2", true) := by
  have e0 : tieBreakCheck n g 0 ⟨"S1", 0, 15⟩ = none :=
    tieBreakCheck0_none "S1" 0 15 (by rintro ⟨-, -, h⟩; linarith)
  have e1 : tieBreakCheck n g 1 ⟨"S2", 16, 25⟩ = none :=
    tieBreakCheck_none 1 "S2" 16 25 (by rintro ⟨-, -, h⟩; linarith)
      (by rintro ⟨-, h, -⟩; linarith)
  have e2 : tieBreakCheck n g 2 ⟨"S3", 26, 33⟩ = some ("S2", true) := by
    exact tieBreakCheck_down 1 "S3" 26 33 (by rintro ⟨-, -, h⟩; linarith)
      h1 (by linarith) hg rfl
  have e3 : tieBreakCheck n g 3 ⟨"S4", 34, 42⟩ = none :=
    tieBreakCheck_none 3 "S4" 34 42 (by rintro ⟨-, -, h⟩; linarith)
      (by rintro ⟨h, -, -⟩; linarith)
  have e4 : tieBreakCheck n g 4 ⟨"S5", 43, 50⟩ = none :=
    tieBreakCheck_none 4 "S5" 43 50 (by rintro ⟨-, -, h⟩; linarith)
      (by rintro ⟨h, -, -⟩; linarith)
  constructor <;>
    simp [applyTieBreaker, applyTieBreakerLastMatch, LEVEL_CUTOFFS, tieBreakLoop,
      tieBreakMatches, e0, e1, e2, e3, e4]

theorem tb_dn4 {n g : ℚ} (h1 : 42 < n) (h2 : n ≤ 44) (hg : g < 35) :
    applyTieBreaker n g = ("S3", true) ∧ applyTieBreakerLastMatch n g = ("S3", true) := by
  have e0 : tieBreakCheck n g 0 ⟨"S1", 0, 15⟩ = none :=
    tieBreakCheck0_none "S1" 0 15 (by rintro ⟨-, -, h⟩; linarith)
  have e1 : tieBreakCheck n g 1 ⟨"S2", 16, 25⟩ = none :=
    tieBreakCheck_none 1 "S2" 16 25 (by rintro ⟨-, -, h⟩; linarith)
      (by rintro ⟨-, h, -⟩; linarith)
  have e2 : tieBreakCheck n g 2 ⟨"S3", 26, 33⟩ = none :=
    tieBreakCheck_none 2 "S3" 26 33 (by rintro ⟨-, -, h⟩; linarith)
      (by rintro ⟨-, h, -⟩; linarith)
  have e3 : tieBreakCheck n g 3 ⟨"S4", 34, 42⟩ = some ("S3", true) := by
    exact tieBreakCheck_down 2 "S4" 34 42 (by rintro ⟨-, -, h⟩; linarith)
      h1 (by linarith) hg rfl
  have e4 : tieBreakCheck n g 4 ⟨"S5", 43, 50⟩ = none :=
    tieBreakCheck_none 4 "S5" 43 50 (by rintro ⟨-, -, h⟩; linarith)
      (by rintro ⟨h, -, -⟩; linarith)
  constructor <;>
    simp [applyTieBreaker, applyTieBreakerLastMatch, LEVEL_CUTOFFS, tieBreakLoop,
      tieBreakMatches, e0, e1, e2, e3, e4]

theorem tb_dn5 {n g : ℚ} (h1 : 50 < n) (h2 : n ≤ 52) (hg : g < 35) :
    applyTieBreaker n g = ("S4", true) ∧ applyTieBreakerLastMatch n g = ("S4", true) := by
  have e0 : tieBreakCheck n g 0 ⟨"S1", 0, 15⟩ = none :=
    tieBreakCheck0_none "S1" 0 15 (by rintro ⟨-, -, h⟩; linarith)
  have e1 : tieBreakCheck n g 1 ⟨"S2", 16, 25⟩ = none :=
    tieBreakCheck_none 1 "S2" 16 25 (by rintro ⟨-, -, h⟩; linarith)
      (by rintro ⟨-, h, -⟩; linarith)
  have e2 : tieBreakCheck n g 2 ⟨"S3", 26, 33⟩ = none :=
    tieBreakCheck_none 2 "S3" 26 33 (by rintro ⟨-, -, h⟩; linarith)
      (by rintro ⟨-, h, -⟩; linarith)
  have e3 : tieBreakCheck n g 3 ⟨"S4", 34, 42⟩ = none :=
    tieBreakCheck_none 3 "S4" 34 42 (by rintro ⟨-, -, h⟩; linarith)
      (by rintro ⟨-, h, -⟩; linarith)
  have e4 : tieBreakCheck n g 4 ⟨"S5", 43, 50⟩ = some ("S4", true) := by
    exact tieBreakCheck_down 3 "S5" 43 50 (by rintro ⟨-, -, h⟩; linarith)
      h1 (by linarith) hg rfl
  constructor <;>
    simp [applyTieBreaker, applyTieBreakerLastMatch, LEVEL_CUTOFFS, tieBreakLoop,
      tieBreakMatches, e0, e1, e2, e3, e4]

theorem tb_none_lo {n g : ℚ} (hg : g < 35)
    (w2 : ¬(25 < n ∧ n ≤ 27)) (w3 : ¬(33 < n ∧ n ≤ 35))
    (w4 : ¬(42 < n ∧ n ≤ 44)) (w5 : ¬(50 < n ∧ n ≤ 52)) :
    applyTieBreaker n g = (mapToLevel n, false) ∧
    applyTieBreakerLastMatch n g = (mapToLevel n, false) := by
  have e0 : tieBreakCheck n g 0 ⟨"S1", 0, 15⟩ = none :=
    tieBreakCheck0_none "S1" 0 15 (by rintro ⟨-, -, h⟩; linarith)
  have e1 : tieBreakCheck n g 1 ⟨"S2", 16, 25⟩ = none :=
    tieBreakCheck_none 1 "S2" 16 25 (by rintro ⟨-, -, h⟩; linarith)
      (by rintro ⟨a, b, -⟩; exact w2 ⟨a, by linarith⟩)
  have e2 : tieBreakCheck n g 2 ⟨"S3", 26, 33⟩ = none :=
    tieBreakCheck_none 2 "S3" 26 33 (by rintro ⟨-, -, h⟩; linarith)
      (by rintro ⟨a, b, -⟩; exact w3 ⟨a, by linarith⟩)
  have e3 : tieBreakCheck n g 3 ⟨"S4", 34, 42⟩ = none :=
    tieBreakCheck_none 3 "S4" 34 42 (by rintro ⟨-, -, h⟩; linarith)
      (by rintro ⟨a, b, -⟩; exact w4 ⟨a, by linarith⟩)
  have e4 : tieBreakCheck n g 4 ⟨"S5", 43, 50⟩ = none :=
    tieBreakCheck_none 4 "S5" 43 50 (by rintro ⟨-, -, h⟩; linarith)
      (by rintro ⟨a, b, -⟩; exact w5 ⟨a, by linarith⟩)
  constructor <;>
    simp [applyTieBreaker, applyTieBreakerLastMatch, LEVEL_CUTOFFS, tieBreakLoop,
      tieBreakMatches, e0, e1, e2, e3, e4]

/-! Helper lemmas: every level the engine produces is one of the five
declared level names, and the engine's level-string parsing agrees with the
direct ordinal function on those names. -/

theorem tieBreakCheck_level {n g : ℚ} {idx : ℕ} {band : Cutoff} {r : String × Bool}
    (hb : band ∈ LEVEL_CUTOFFS) (h : tieBreakCheck n g idx band = some r) :
    r.1 ∈ levelNames := by
  simp only [tieBreakCheck] at h
  split_ifs at h with h1 h2
  · injection h with h
    subst h
    exact List.mem_map_of_mem Cutoff.level hb
  · rcases idx with - | j
    · exact absurd h (by simp)
    · cases hq : LEVEL_CUTOFFS.get? (j + 1 - 1) with
      | none => rw [hq] at h; exact absurd h (by simp)
      | some lower =>
        rw [hq] at h
        injection h with h
        subst h
        exact List.mem_map_of_mem Cutoff.level (List.get?_mem hq)

theorem tieBreakLoop_level {n g : ℚ} :
    ∀ (l : List Cutoff) (idx : ℕ) (r : String × Bool), l ⊆ LEVEL_CUTOFFS →
      tieBreakLoop n g idx l = some r → r.1 ∈ levelNames := by
  intro l
  induction l with
  | nil => intro idx r _ h; simp [tieBreakLoop] at h
  | cons band rest ih =>
    intro idx r hsub h
    rw [tieBreakLoop] at h
    cases hc : tieBreakCheck n g idx band with
    | some v =>
      rw [hc] at h
      injection h with h
      subst h
      exact tieBreakCheck_level (hsub (by simp)) hc
    | none =>
      rw [hc] at h
      exact ih (idx + 1) r (fun c hc2 => hsub (by simp [hc2])) h

theorem applyTieBreaker_level_mem (n g : ℚ) : (applyTieBreaker n g).1 ∈ levelNames := by
  rw [applyTieBreaker]
  cases h : tieBreakLoop n g 0 LEVEL_CUTOFFS with
  | some r => simpa using tieBreakLoop_level LEVEL_CUTOFFS 0 r (fun c hc => hc) h
  | none => simpa using mapToLevel_mem n

theorem mem_levelNames_iff {l : String} :
    l ∈ levelNames ↔ l = "S1" ∨ l = "S2" ∨ l = "S3" ∨ l = "S4" ∨ l = "S5" := by
  simp [levelNames, LEVEL_CUTOFFS]

theorem levelToNumberD_eq_ordinal {l : String} (h : l ∈ levelNames) :
    levelToNumberD l = levelOrdinal l := by
  rw [mem_levelNames_iff] at h
  rcases h with rfl | rfl | rfl | rfl | rfl <;> rfl

theorem levelOrdinal_bounds {l : String} (h : l ∈ levelNames) :
    1 ≤ levelOrdinal l ∧ levelOrdinal l ≤ 5 := by
  rw [mem_levelNames_iff] at h
  rcases h with rfl | rfl | rfl | rfl | rfl <;> exact ⟨by decide, by decide⟩

theorem sMin_mem_levelNames {a b : ℕ} (ha : 1 ≤ a ∧ a ≤ 5) (hb : 1 ≤ b ∧ b ≤ 5) :
    ("S" ++ toString (min a b)) ∈ levelNames := by
  have h1 : 1 ≤ min a b := le_min ha.1 hb.1
  have h2 : min a b ≤ 5 := le_trans (min_le_left a b) ha.2
  interval_cases h : min a b <;> decide

theorem description_isSome {l : String} (h : l ∈ levelNames) :
    (LEVEL_DESCRIPTIONS.lookup l).isSome = true := by
  rw [mem_levelNames_iff] at h
  rcases h with rfl | rfl | rfl | rfl | rfl <;> rfl

/-- Membership of a score in a band of the concrete cutoff table, spelled
out per band with the numeric bounds in the open. -/
theorem bandContains_iff {n : ℚ} {c : Cutoff} :
    (c ∈ LEVEL_CUTOFFS ∧ c.min ≤ n ∧ n ≤ c.max) ↔
    (c = ⟨"S1", 0, 15⟩ ∧ 0 ≤ n ∧ n ≤ 15) ∨ (c = ⟨"S2", 16, 25⟩ ∧ 16 ≤ n ∧ n ≤ 25) ∨
    (c = ⟨"S3", 26, 33⟩ ∧ 26 ≤ n ∧ n ≤ 33) ∨ (c = ⟨"S4", 34, 42⟩ ∧ 34 ≤ n ∧ n ≤ 42) ∨
    (c = ⟨"S5", 43, 50⟩ ∧ 43 ≤ n ∧ n ≤ 50) := by
  constructor
  · rintro ⟨hc, h1, h2⟩
    simp only [LEVEL_CUTOFFS, List.mem_cons, List.not_mem_nil, or_false] at hc
    rcases hc with rfl | rfl | rfl | rfl | rfl
    · exact Or.inl ⟨rfl, h1, h2⟩
    · exact Or.inr (Or.inl ⟨rfl, h1, h2⟩)
    · exact Or.inr (Or.inr (Or.inl ⟨rfl, h1, h2⟩))
    · exact Or.inr (Or.inr (Or.inr (Or.inl ⟨rfl, h1, h2⟩)))
    · exact Or.inr (Or.inr (Or.inr (Or.inr ⟨rfl, h1, h2⟩)))
  · rintro (⟨rfl, h1, h2⟩ | ⟨rfl, h1, h2⟩ | ⟨rfl, h1, h2⟩ | ⟨rfl, h1, h2⟩ | ⟨rfl, h1, h2⟩) <;>
      exact ⟨by simp [LEVEL_CUTOFFS], h1, h2⟩

/-- C1 counterexample: the real (rational) score 15.5 lies in `[0, 50]` but
in no band of `LEVEL_CUTOFFS`, so band coverage is not exhaustive over all
of `[0, 50]`; the level-mapping step falls back to `"S1"` there. -/
theorem c1_counterexample :
    (0 : ℚ) ≤ 31 / 2 ∧ (31 / 2 : ℚ) ≤ 50 ∧
    (¬∃ c ∈ LEVEL_CUTOFFS, c.min ≤ (31 / 2 : ℚ) ∧ (31 / 2 : ℚ) ≤ c.max) ∧
    mapToLevel (31 / 2) = "S1" := by
  refine ⟨by norm_num, by norm_num, ?_, ?_⟩
  · rintro ⟨c, hc⟩
    rw [bandContains_iff] at hc
    rcases hc with ⟨-, -, h⟩ | ⟨-, h, -⟩ | ⟨-, h, -⟩ | ⟨-, h, -⟩ | ⟨-, h, -⟩ <;> norm_num at h
  · exact mapToLevel_fallback (by norm_num) (by norm_num) (by norm_num) (by norm_num)
      (by norm_num)

/-- C1 (amended): away from the four one-point-wide open gaps (15,16),
(25,26), (33,34), (42,43), every score in `[0, 50]` lies in exactly one band
of the cutoff table, and the eight boundary values map to the stated levels. -/
theorem c1_amended :
    (∀ n : ℚ, 0 ≤ n → n ≤ 50 → ¬inCutoffGap n →
      ∃! c, c ∈ LEVEL_CUTOFFS ∧ c.min ≤ n ∧ n ≤ c.max) ∧
    mapToLevel 15 = "S1" ∧ mapToLevel 16 = "S2" ∧ mapToLevel 25 = "S2" ∧
    mapToLevel 26 = "S3" ∧ mapToLevel 33 = "S3" ∧ mapToLevel 34 = "S4" ∧
    mapToLevel 42 = "S4" ∧ mapToLevel 43 = "S5" := by
  constructor
  · intro n h0 h50 hgap
    rw [inCutoffGap] at hgap
    push_neg at hgap
    obtain ⟨g1, g2, g3, g4⟩ := hgap
    rcases le_or_lt n 15 with h | h
    · refine ⟨⟨"S1", 0, 15⟩, bandContains_iff.mpr (Or.inl ⟨rfl, h0, h⟩), ?_⟩
      intro c hc
      rw [bandContains_iff] at hc
      rcases hc with ⟨rfl, -, -⟩ | ⟨rfl, h1, -⟩ | ⟨rfl, h1, -⟩ | ⟨rfl, h1, -⟩ | ⟨rfl, h1, -⟩
      · rfl
      all_goals linarith
    rcases le_or_lt n 25 with h2 | h2
    · refine ⟨⟨"S2", 16, 25⟩,
        bandContains_iff.mpr (Or.inr (Or.inl ⟨rfl, g1 h, h2⟩)), ?_⟩
      intro c hc
      rw [bandContains_iff] at hc
      have h16 : 16 ≤ n := g1 h
      rcases hc with ⟨rfl, -, h1⟩ | ⟨rfl, -, -⟩ | ⟨rfl, h1, -⟩ | ⟨rfl, h1, -⟩ | ⟨rfl, h1, -⟩
      · linarith
      · rfl
      all_goals linarith
    rcases le_or_lt n 33 with h3 | h3
    · refine ⟨⟨"S3", 26, 33⟩,
        bandContains_iff.mpr (Or.inr (Or.inr (Or.inl ⟨rfl, g2 h2, h3⟩))), ?_⟩
      intro c hc
      rw [bandContains_iff] at hc
      have h26 : 26 ≤ n := g2 h2
      rcases hc with ⟨rfl, -, h1⟩ | ⟨rfl, -, h1⟩ | ⟨rfl, -, -⟩ | ⟨rfl, h1, -⟩ | ⟨rfl, h1, -⟩
      · linarith
      · linarith
      · rfl
      all_goals linarith
    rcases le_or_lt n 42 with h4 | h4
    · refine ⟨⟨"S4", 34, 42⟩,
        bandContains_iff.mpr (Or.inr (Or.inr (Or.inr (Or.inl ⟨rfl, g3 h3, h4⟩)))), ?_⟩
      intro c hc
      rw [bandContains_iff] at hc
      have h34 : 34 ≤ n := g3 h3
      rcases hc with ⟨rfl, -, h1⟩ | ⟨rfl, -, h1⟩ | ⟨rfl, -, h1⟩ | ⟨rfl, -, -⟩ | ⟨rfl, h1, -⟩
      · linarith
      · linarith
      · linarith
      · rfl
      · linarith
    · refine ⟨⟨"S5", 43, 50⟩,
        bandContains_iff.mpr (Or.inr (Or.inr (Or.inr (Or.inr ⟨rfl, g4 h4, h50⟩)))), ?_⟩
      intro c hc
      rw [bandContains_iff] at hc
      have h43 : 43 ≤ n := g4 h4
      rcases hc with ⟨rfl, -, h1⟩ | ⟨rfl, -, h1⟩ | ⟨rfl, -, h1⟩ | ⟨rfl, -, h1⟩ | ⟨rfl, -, -⟩
      · linarith
      · linarith
      · linarith
      · linarith
      · rfl
  refine ⟨mapToLevel_S1 (by norm_num) (by norm_num), mapToLevel_S2 (by norm_num) (by norm_num),
    mapToLevel_S2 (by norm_num) (by norm_num), mapToLevel_S3 (by norm_num) (by norm_num),
    mapToLevel_S3 (by norm_num) (by norm_num), mapToLevel_S4 (by norm_num) (by norm_num),
    mapToLevel_S4 (by norm_num) (by norm_num), mapToLevel_S5 (by norm_num) (by norm_num)⟩

/-- C1 (amended) witness at the concrete score 20: exactly one band of the
cutoff table contains 20. -/
theorem c1_amended_witness :
    ∃! c, c ∈ LEVEL_CUTOFFS ∧ c.min ≤ (20 : ℚ) ∧ (20 : ℚ) ≤ c.max :=
  c1_amended.1 20 (by decide) (by decide) (by decide)

/-- C2: the source's tie-break loop (which returns at the first band whose
window and grammar conditions both fire) is extensionally equal, at every
pair of normalized scores, to the spec's described scan of all five bands
without an early exit in which the last match in ascending band order wins:
at most one band can ever fire, so the two disciplines agree. -/
theorem c2_lastMatch_equiv : ∀ n g : ℚ, applyTieBreaker n g = applyTieBreakerLastMatch n g := by
  intro n g
  rcases lt_or_le g 35 with hg | hg
  · by_cases w2 : 25 < n ∧ n ≤ 27
    · obtain ⟨a, b⟩ := tb_dn2 w2.1 w2.2 hg
      rw [a, b]
    by_cases w3 : 33 < n ∧ n ≤ 35
    · obtain ⟨a, b⟩ := tb_dn3 w3.1 w3.2 hg
      rw [a, b]
    by_cases w4 : 42 < n ∧ n ≤ 44
    · obtain ⟨a, b⟩ := tb_dn4 w4.1 w4.2 hg
      rw [a, b]
    by_cases w5 : 50 < n ∧ n ≤ 52
    · obtain ⟨a, b⟩ := tb_dn5 w5.1 w5.2 hg
      rw [a, b]
    obtain ⟨a, b⟩ := tb_none_lo hg w2 w3 w4 w5
    rw [a, b]
  · by_cases w1 : -2 ≤ n ∧ n < 0
    · obtain ⟨a, b⟩ := tb_up1 w1.1 w1.2 hg
      rw [a, b]
    by_cases w2 : 14 ≤ n ∧ n < 16
    · obtain ⟨a, b⟩ := tb_up2 w2.1 w2.2 hg
      rw [a, b]
    by_cases w3 : 24 ≤ n ∧ n < 26
    · obtain ⟨a, b⟩ := tb_up3 w3.1 w3.2 hg
      rw [a, b]
    by_cases w4 : 32 ≤ n ∧ n < 34
    · obtain ⟨a, b⟩ := tb_up4 w4.1 w4.2 hg
      rw [a, b]
    by_cases w5 : 41 ≤ n ∧ n < 43
    · obtain ⟨a, b⟩ := tb_up5 w5.1 w5.2 hg
      rw [a, b]
    obtain ⟨a, b⟩ := tb_none_hi hg w1 w2 w3 w4 w5
    rw [a, b]

/-- C4: whenever a skill's normalized score lies in the half-open window
`[band.min - 2, band.min)` of any band and the GrammarVocabulary normalized
score is at least 35, the tie-break returns that band with the flag set; in
particular ReadingWriting raw 7 (normalized 175/12, inside `[14, 16)`) is
promoted to S2 whenever grammar is at least 35. -/
theorem c4_upward :
    (∀ (s g : ℚ) (b : Cutoff), b ∈ LEVEL_CUTOFFS → b.min - 2 ≤ s → s < b.min → 35 ≤ g →
      applyTieBreaker s g = (b.level, true)) ∧
    (∀ g : ℚ, 35 ≤ g → applyTieBreaker (normalizeScore 7 24) g = ("S2", true)) := by
  constructor
  · intro s g b hb h1 h2 hg
    simp only [LEVEL_CUTOFFS, List.mem_cons, List.not_mem_nil, or_false] at hb
    rcases hb with rfl | rfl | rfl | rfl | rfl
    · exact (tb_up1 (by linarith [show (0 : ℚ) - 2 ≤ s from h1]) h2 hg).1
    · exact (tb_up2 (by linarith [show (16 : ℚ) - 2 ≤ s from h1]) h2 hg).1
    · exact (tb_up3 (by linarith [show (26 : ℚ) - 2 ≤ s from h1]) h2 hg).1
    · exact (tb_up4 (by linarith [show (34 : ℚ) - 2 ≤ s from h1]) h2 hg).1
    · exact (tb_up5 (by linarith [show (43 : ℚ) - 2 ≤ s from h1]) h2 hg).1
  · intro g hg
    have hs : normalizeScore 7 24 = 175 / 12 := by norm_num [normalizeScore]
    rw [hs]
    exact (tb_up2 (by norm_num) (by norm_num) hg).1

/-- C4 witness: the ReadingWriting raw-7 scenario (normalized 175/12, in
the upward window of S2) at grammar exactly 35. -/
theorem c4_upward_witness :
    applyTieBreaker (normalizeScore 7 24) 35 = ("S2", true) :=
  c4_upward.2 35 (by decide)

/-- C3 counterexample: ReadingWriting raw 21 normalizes to 43.75, which lies
in the downward window `(42, 44]` of S4; with grammar below 35 the tie-break
fires and returns S3, while the base level of 43.75 is S5 — two band
positions apart, not one. -/
theorem c3_counterexample :
    normalizeScore 21 24 = 175 / 4 ∧
    applyTieBreaker (175 / 4) 0 = ("S3", true) ∧
    mapToLevel (175 / 4) = "S5" ∧
    ¬(levelOrdinal "S3" = levelOrdinal "S5" + 1 ∨ levelOrdinal "S5" = levelOrdinal "S3" + 1) :=
  ⟨by norm_num [normalizeScore],
   (tb_dn4 (by norm_num) (by norm_num) (by norm_num)).1,
   mapToLevel_S5 (by norm_num) (by norm_num),
   by decide⟩

/-- C3 (amended): when the tie-break fires on a normalized score that lies
inside one of the five bands, the returned level differs from the base level
by one band position (upward firings) or by one or two positions (downward
firings demote a score at the bottom edge of the band above the matched band
by two); scores in the cutoff gaps, whose base level is the `"S1"` fallback,
can differ by more. -/
theorem c3_amended (n g : ℚ) (hband : ∃ c ∈ LEVEL_CUTOFFS, c.min ≤ n ∧ n ≤ c.max)
    (hfire : (applyTieBreaker n g).2 = true) :
    ((levelOrdinal (applyTieBreaker n g).1 : ℤ) - levelOrdinal (mapToLevel n)).natAbs = 1 ∨
    ((levelOrdinal (applyTieBreaker n g).1 : ℤ) - levelOrdinal (mapToLevel n)).natAbs = 2 := by
  obtain ⟨c, hc⟩ := hband
  rw [bandContains_iff] at hc
  rcases lt_or_le g 35 with hg | hg
  · rcases hc with ⟨-, h1, h2⟩ | ⟨-, h1, h2⟩ | ⟨-, h1, h2⟩ | ⟨-, h1, h2⟩ | ⟨-, h1, h2⟩
    · rw [(tb_none_lo hg (by rintro ⟨a, -⟩; linarith) (by rintro ⟨a, -⟩; linarith)
        (by rintro ⟨a, -⟩; linarith) (by rintro ⟨a, -⟩; linarith)).1] at hfire
      simp at hfire
    · rw [(tb_none_lo hg (by rintro ⟨a, -⟩; linarith) (by rintro ⟨a, -⟩; linarith)
        (by rintro ⟨a, -⟩; linarith) (by rintro ⟨a, -⟩; linarith)).1] at hfire
      simp at hfire
    · by_cases w2 : 25 < n ∧ n ≤ 27
      · rw [(tb_dn2 w2.1 w2.2 hg).1, mapToLevel_S3 h1 h2]
        right
        decide
      · rw [(tb_none_lo hg w2 (by rintro ⟨a, -⟩; linarith) (by rintro ⟨a, -⟩; linarith)
          (by rintro ⟨a, -⟩; linarith)).1] at hfire
        simp at hfire
    · by_cases w3 : 33 < n ∧ n ≤ 35
      · rw [(tb_dn3 w3.1 w3.2 hg).1, mapToLevel_S4 h1 h2]
        right
        decide
      · rw [(tb_none_lo hg (by rintro ⟨-, b⟩; linarith) w3 (by rintro ⟨a, -⟩; linarith)
          (by rintro ⟨a, -⟩; linarith)).1] at hfire
        simp at hfire
    · by_cases w4 : 42 < n ∧ n ≤ 44
      · rw [(tb_dn4 w4.1 w4.2 hg).1, mapToLevel_S5 h1 h2]
        right
        decide
      · rw [(tb_none_lo hg (by rintro ⟨-, b⟩; linarith) (by rintro ⟨-, b⟩; linarith) w4
          (by rintro ⟨a, -⟩; linarith)).1] at hfire
        simp at hfire
  · rcases hc with ⟨-, h1, h2⟩ | ⟨-, h1, h2⟩ | ⟨-, h1, h2⟩ | ⟨-, h1, h2⟩ | ⟨-, h1, h2⟩
    · by_cases w2 : 14 ≤ n ∧ n < 16
      · rw [(tb_up2 w2.1 w2.2 hg).1, mapToLevel_S1 h1 h2]
        left
        decide
      · rw [(tb_none_hi hg (by rintro ⟨-, b⟩; linarith) w2 (by rintro ⟨a, -⟩; linarith)
          (by rintro ⟨a, -⟩; linarith) (by rintro ⟨a, -⟩; linarith)).1] at hfire
        simp at hfire
    · by_cases w3 : 24 ≤ n ∧ n < 26
      · rw [(tb_up3 w3.1 w3.2 hg).1, mapToLevel_S2 h1 h2]
        left
        decide
      · rw [(tb_none_hi hg (by rintro ⟨-, b⟩; linarith) (by rintro ⟨-, b⟩; linarith) w3
          (by rintro ⟨a, -⟩; linarith) (by rintro ⟨a, -⟩; linarith)).1] at hfire
        simp at hfire
    · by_cases w4 : 32 ≤ n ∧ n < 34
      · rw [(tb_up4 w4.1 w4.2 hg).1, mapToLevel_S3 h1 h2]
        left
        decide
      · rw [(tb_none_hi hg (by rintro ⟨-, b⟩; linarith) (by rintro ⟨-, b⟩; linarith)
          (by rintro ⟨-, b⟩; linarith) w4 (by rintro ⟨a, -⟩; linarith)).1] at hfire
        simp at hfire
    · by_cases w5 : 41 ≤ n ∧ n < 43
      · rw [(tb_up5 w5.1 w5.2 hg).1, mapToLevel_S4 h1 h2]
        left
        decide
      · rw [(tb_none_hi hg (by rintro ⟨-, b⟩; linarith) (by rintro ⟨-, b⟩; linarith)
          (by rintro ⟨-, b⟩; linarith) (by rintro ⟨-, b⟩; linarith) w5).1] at hfire
        simp at hfire
    · rw [(tb_none_hi hg (by rintro ⟨-, b⟩; linarith) (by rintro ⟨-, b⟩; linarith)
        (by rintro ⟨-, b⟩; linarith) (by rintro ⟨-, b⟩; linarith)
        (by rintro ⟨-, b⟩; linarith)).1] at hfire
      simp at hfire

/-- C3 (amended) witness at the concrete in-band score 27 with grammar 0:
the tie-break fires (S2's downward window) and the result S1 sits two band
positions below the base level S3. -/
theorem c3_amended_witness :
    ((levelOrdinal (applyTieBreaker 27 0).1 : ℤ) - levelOrdinal (mapToLevel 27)).natAbs = 1 ∨
    ((levelOrdinal (applyTieBreaker 27 0).1 : ℤ) - levelOrdinal (mapToLevel 27)).natAbs = 2 :=
  c3_amended 27 0 ⟨⟨"S3", 26, 33⟩, by decide, by decide, by decide⟩
    (by rw [(tb_dn2 (by decide) (by decide) (by decide)).1])

/-- C5: the overall level of the report is `"S"` followed by the minimum of
the ordinals of the tie-break-adjusted ReadingWriting and Listening levels;
the GrammarVocabulary score enters only through the tie-break inputs, not
the minimum. -/
theorem c5_overall_min (answers : AnswerMap) :
    (calculateSEMFLevel answers).overallLevel =
      "S" ++ toString (min
        (levelOrdinal (applyTieBreaker
          (normalizeScore (calculateActualScores answers).ReadingWriting 24)
          (normalizeScore (calculateActualScores answers).GrammarVocabulary 20)).1)
        (levelOrdinal (applyTieBreaker
          (normalizeScore (calculateActualScores answers).Listening 12)
          (normalizeScore (calculateActualScores answers).GrammarVocabulary 20)).1)) := by
  simp only [calculateSEMFLevel]
  rw [levelToNumberD_eq_ordinal (applyTieBreaker_level_mem _ _),
    levelToNumberD_eq_ordinal (applyTieBreaker_level_mem _ _)]

/-- C6: normalization `(raw / max) * 50` stays within `[0, 50]` whenever the
raw score does not exceed the skill maximum (20, 24 or 12), and it is
monotonically non-decreasing in the raw score. -/
theorem c6_normalization :
    (∀ r m : ℕ, (m = 20 ∨ m = 24 ∨ m = 12) → r ≤ m →
      0 ≤ normalizeScore r m ∧ normalizeScore r m ≤ 50) ∧
    (∀ r1 r2 m : ℕ, r1 ≤ r2 → normalizeScore r1 m ≤ normalizeScore r2 m) := by
  constructor
  · intro r m hm hr
    have hm0 : (0 : ℚ) < m := by rcases hm with rfl | rfl | rfl <;> norm_num
    constructor
    · rw [normalizeScore]
      positivity
    · rw [normalizeScore]
      have h1 : (r : ℚ) / m ≤ 1 := (div_le_one hm0).mpr (by exact_mod_cast hr)
      have := mul_le_mul_of_nonneg_right h1 (show (0 : ℚ) ≤ 50 by norm_num)
      simpa using this
  · intro r1 r2 m h
    rcases Nat.eq_zero_or_pos m with rfl | hm
    · simp [normalizeScore]
    · have hm0 : (0 : ℚ) < m := by exact_mod_cast hm
      rw [normalizeScore, normalizeScore]
      have h1 : (r1 : ℚ) / m ≤ (r2 : ℚ) / m :=
        (div_le_div_iff_of_pos_right hm0).mpr (by exact_mod_cast h)
      exact mul_le_mul_of_nonneg_right h1 (by norm_num)

/-- C6 witness: raw 10 of 20 normalizes into `[0, 50]`, and normalization is
monotone from raw 3 to raw 5 out of 12. -/
theorem c6_normalization_witness :
    (0 ≤ normalizeScore 10 20 ∧ normalizeScore 10 20 ≤ 50) ∧
    normalizeScore 3 12 ≤ normalizeScore 5 12 :=
  ⟨c6_normalization.1 10 20 (Or.inl rfl) (by decide), c6_normalization.2 3 5 12 (by decide)⟩

/-- C7: on every answer map the engine returns a structurally complete
report: two skill entries carrying defined level names, an overall level
that is a defined level name, and a successful description lookup for every
level present. -/
theorem c7_total_report (answers : AnswerMap) :
    reportWellFormed (calculateSEMFLevel answers) := by
  have hrw := applyTieBreaker_level_mem
    (normalizeScore (calculateActualScores answers).ReadingWriting 24)
    (normalizeScore (calculateActualScores answers).GrammarVocabulary 20)
  have hlis := applyTieBreaker_level_mem
    (normalizeScore (calculateActualScores answers).Listening 12)
    (normalizeScore (calculateActualScores answers).GrammarVocabulary 20)
  have hov : ("S" ++ toString (min
      (levelToNumberD (applyTieBreaker
        (normalizeScore (calculateActualScores answers).ReadingWriting 24)
        (normalizeScore (calculateActualScores answers).GrammarVocabulary 20)).1)
      (levelToNumberD (applyTieBreaker
        (normalizeScore (calculateActualScores answers).Listening 12)
        (normalizeScore (calculateActualScores answers).GrammarVocabulary 20)).1))) ∈
      levelNames := by
    rw [levelToNumberD_eq_ordinal hrw, levelToNumberD_eq_ordinal hlis]
    exact sMin_mem_levelNames (levelOrdinal_bounds hrw) (levelOrdinal_bounds hlis)
  simp only [calculateSEMFLevel, reportWellFormed]
  refine ⟨rfl, ?_, hov, ?_⟩
  · intro s hs
    simp only [List.mem_cons, List.not_mem_nil, or_false] at hs
    rcases hs with rfl | rfl
    · exact hrw
    · exact hlis
  · intro p hp
    simp only [List.mem_map] at hp
    obtain ⟨l, hl, rfl⟩ := hp
    have hl2 := List.mem_dedup.mp hl
    simp only [List.mem_cons, List.not_mem_nil, or_false] at hl2
    rcases hl2 with rfl | rfl | rfl
    · exact description_isSome hrw
    · exact description_isSome hlis
    · exact description_isSome hov

theorem strLength_eq_zero {s : String} (h : s.length = 0) : s = "" := by
  cases s with
  | mk data =>
    have hd : data = [] := List.length_eq_zero.mp h
    rw [hd]

/-- One ordered-list question: the comparison succeeds iff the submitted
answer exists and its trimmed text equals the key. -/
theorem orderedMatch_iff (answers : AnswerMap) (i : ℕ) (k : String)
    (hk : CORRECT_ANSWERS.lookup i = some k) :
    answerMatches answers strTrim i = true ↔
      ∃ a k2, getAnswer answers i = some a ∧ CORRECT_ANSWERS.lookup i = some k2 ∧
        strTrim a = k2 := by
  cases ha : getAnswer answers i with
  | none => simp [answerMatches, ha, hk]
  | some a => simp [answerMatches, ha, hk]

/-- C8: in the ordered-list range 36-40 a point is scored iff the submitted
answer exists and its trimmed text (no case folding) equals the key string
character for character; for question 36 the exact key `"B, C, D, A"` scores
while the lower-case and the space-free variants do not. -/
theorem c8_ordered_strict :
    (∀ i : ℕ, 36 ≤ i → i ≤ 40 → ∀ answers : AnswerMap,
      (answerMatches answers strTrim i = true ↔
        ∃ a k, getAnswer answers i = some a ∧ CORRECT_ANSWERS.lookup i = some k ∧
          strTrim a = k)) ∧
    calculateActualScores [(36, "B, C, D, A")] = ⟨0, 1, 0⟩ ∧
    calculateActualScores [(36, "b, c, d, a")] = ⟨0, 0, 0⟩ ∧
    calculateActualScores [(36, "B,C,D,A")] = ⟨0, 0, 0⟩ := by
  refine ⟨?_, by decide, by decide, by decide⟩
  intro i h36 h40 answers
  interval_cases i <;> exact orderedMatch_iff answers _ _ rfl

/-- C8 witness: the general iff at question 36 for the singleton answer map
holding the exactly formatted key. -/
theorem c8_ordered_strict_witness :
    answerMatches [(36, "B, C, D, A")] strTrim 36 = true ↔
      ∃ a k, getAnswer [(36, "B, C, D, A")] 36 = some a ∧
        CORRECT_ANSWERS.lookup 36 = some k ∧ strTrim a = k :=
  c8_ordered_strict.1 36 (by decide) (by decide) [(36, "B, C, D, A")]

/-- C9: the essay point for question 44 is awarded iff the whitespace-run
word count of the trimmed answer lies in `[80, 200]` and the lower-cased
answer contains an argument-signal word; an absent answer or one that trims
to the empty string has word count 0 and never scores. -/
theorem c9_essay :
    (∀ answers : AnswerMap,
      (essayPoint answers = true ↔
        80 ≤ essayWordCount answers ∧ essayWordCount answers ≤ 200 ∧
          hasArgument (essayAnswerOf answers) = true)) ∧
    (∀ answers : AnswerMap,
      (getAnswer answers 44 = none ∨ ∃ a, getAnswer answers 44 = some a ∧ strTrim a = "") →
        essayWordCount answers = 0 ∧ essayPoint answers = false) := by
  constructor
  · intro answers
    simp only [essayPoint]
    by_cases hc : 80 ≤ essayWordCount answers ∧ essayWordCount answers ≤ 200 ∧
        0 < (essayAnswerOf answers).length
    · rw [if_pos hc]
      constructor
      · intro h
        exact ⟨hc.1, hc.2.1, h⟩
      · rintro ⟨-, -, h3⟩
        exact h3
    · rw [if_neg hc]
      constructor
      · intro h
        exact absurd h (by simp)
      · rintro ⟨h1, h2, -⟩
        exfalso
        apply hc
        refine ⟨h1, h2, ?_⟩
        rcases Nat.eq_zero_or_pos (essayAnswerOf answers).length with hz | hp
        · exfalso
          have he : essayAnswerOf answers = "" := strLength_eq_zero hz
          have hw : essayWordCount answers = 0 := by
            simp only [essayWordCount]
            rw [if_pos he]
          omega
        · exact hp
  · intro answers hcase
    have he : essayAnswerOf answers = "" := by
      rcases hcase with h | ⟨a, ha, htrim⟩
      · rw [essayAnswerOf, h]
        rfl
      · rw [essayAnswerOf, ha]
        simpa using htrim
    have hw : essayWordCount answers = 0 := by
      simp only [essayWordCount]
      rw [if_pos he]
    refine ⟨hw, ?_⟩
    simp only [essayPoint]
    rw [if_neg]
    rintro ⟨h1, -, -⟩
    omega

/-- C9 witness: the empty answer map has essay word count 0 and no essay
point. -/
theorem c9_essay_witness : essayWordCount [] = 0 ∧ essayPoint [] = false :=
  c9_essay.2 [] (Or.inl rfl)

/-- C10: the completion figure is the number of entries of the answer map
over the fixed total 56, times 100 — counting entries with out-of-range
question numbers and empty answer texts alike — so a map with more than 56
entries reports more than 100 percent. -/
theorem c10_completion :
    (∀ answers : AnswerMap, completionRate answers = (answers.length : ℚ) * 100 / 56) ∧
    ∃ answers : AnswerMap, (answers.map Prod.fst).Nodup ∧ 56 < answers.length ∧
      100 < completionRate answers ∧ (∃ p ∈ answers, p.1 = 0) ∧ ∃ p ∈ answers, p.2 = "" := by
  constructor
  · intro answers
    rw [completionRate]
    ring
  · refine ⟨(List.range 57).map (fun i => (i, "")), ?_, ?_, ?_, ?_, ?_⟩
    · have hmap : ((List.range 57).map (fun i => (i, ""))).map Prod.fst = List.range 57 := by
        rw [List.map_map]
        exact List.map_id _
      rw [hmap]
      exact List.nodup_range 57
    · simp
    · have hlen : ((List.range 57).map (fun i : ℕ => (i, ""))).length = 57 := by simp
      rw [completionRate, hlen]
      norm_num
    · exact ⟨(0, ""), by simp, rfl⟩
    · exact ⟨(0, ""), by simp, rfl⟩

end SEMF
